import Mathlib

/-!
Verification development for the celestial-clock application.

The core under study is:
  * `getMoonPhase` (src/services/celestialService.ts): instant → moon phase,
    age in days and cycle fraction;
  * the alarm logic of the App component: the 1 Hz tick effect, the
    `setSunriseAlarm`, `clearAlarm` and `dismissAlarm` handlers, and the
    startup rehydration of the persisted alarm timestamp;
  * `getSkyGradient` and the azimuth/altitude → dial projection.

Modelling conventions:
  * JS numbers are modelled by exact rationals `ℚ`; `Date.getTime()` values
    are milliseconds since the Unix epoch.
  * The JS remainder operator `%` truncates toward zero (sign of the
    dividend); it is modelled by `jsMod` below, not by mathematical modulo.
  * Wall-clock instants driving the alarm are modelled as `ℕ` seconds on a
    continuous local clock; `Date.getHours/getMinutes/getSeconds` become
    arithmetic on those seconds.
  * The SunCalc ephemeris is an external collaborator; it enters the model
    as a function parameter `sunriseOf : ℕ → Location → ℕ`.
-/

namespace CelestialClock

/-- The eight moon phases of the `MoonPhase` enum (src/types). -/
inductive MoonPhase
  | NewMoon
  | WaxingCrescent
  | FirstQuarter
  | WaxingGibbous
  | FullMoon
  | WaningGibbous
  | ThirdQuarter
  | WaningCrescent
  deriving DecidableEq

/-- `MoonPhaseInfo` of src/services/celestialService.ts (the optional
`illumination` field is display-only and set elsewhere; it is omitted). -/
structure MoonPhaseInfo where
  phase : MoonPhase
  age : ℚ
  fraction : ℚ
  deriving DecidableEq

/-- `LUNAR_MONTH = 29.530588853` days (src/services/celestialService.ts). -/
def LUNAR_MONTH : ℚ := 29.530588853

/-- `KNOWN_NEW_MOON`: the reference new-moon instant 2000-01-06T18:14:00Z
as `Date.getTime()` milliseconds since the Unix epoch:
(10962 days + 18 h 14 min) * 1000. -/
def KNOWN_NEW_MOON : ℚ := 947182440000

/-- Truncation toward zero, the rounding used by the JS `%` operator. -/
def jsTrunc (q : ℚ) : ℤ := if 0 ≤ q then ⌊q⌋ else ⌈q⌉

/-- The JS remainder `a % b`: truncated-division remainder, which keeps the
sign of the dividend (it is NOT mathematical modulo). -/
def jsMod (a b : ℚ) : ℚ := a - b * (jsTrunc (a / b) : ℚ)

/-- `daysSinceKnownNewMoon` (src/services/celestialService.ts). -/
def daysSinceKnownNewMoon (tms : ℚ) : ℚ :=
  (tms - KNOWN_NEW_MOON) / (1000 * 60 * 60 * 24)

/-- The `if`/`else if` phase classification chain inside `getMoonPhase`
(src/services/celestialService.ts, lines 26-44), verbatim. -/
def classifyFraction (fraction : ℚ) : MoonPhase :=
  if fraction < 0.03 ∨ 0.97 ≤ fraction then .NewMoon
  else if fraction < 0.23 then .WaxingCrescent
  else if fraction < 0.27 then .FirstQuarter
  else if fraction < 0.48 then .WaxingGibbous
  else if fraction < 0.52 then .FullMoon
  else if fraction < 0.73 then .WaningGibbous
  else if fraction < 0.77 then .ThirdQuarter
  else .WaningCrescent

/-- `getMoonPhase` (src/services/celestialService.ts): `days % LUNAR_MONTH`
is the JS truncating remainder, hence `jsMod`. -/
def getMoonPhase (tms : ℚ) : MoonPhaseInfo :=
  let days := daysSinceKnownNewMoon tms
  let age := jsMod days LUNAR_MONTH
  let fraction := age / LUNAR_MONTH
  { phase := classifyFraction fraction, age := age, fraction := fraction }

/-- The phase table as the spec words it (section 4.1): explicit
half-open intervals partitioning `[0, 1)`. Used to compare the
classification chain of the code against the table of the spec. -/
def specPhaseOfFraction (f : ℚ) : MoonPhase :=
  if (0 ≤ f ∧ f < 0.03) ∨ (0.97 ≤ f ∧ f < 1) then .NewMoon
  else if 0.03 ≤ f ∧ f < 0.23 then .WaxingCrescent
  else if 0.23 ≤ f ∧ f < 0.27 then .FirstQuarter
  else if 0.27 ≤ f ∧ f < 0.48 then .WaxingGibbous
  else if 0.48 ≤ f ∧ f < 0.52 then .FullMoon
  else if 0.52 ≤ f ∧ f < 0.73 then .WaningGibbous
  else if 0.73 ≤ f ∧ f < 0.77 then .ThirdQuarter
  else .WaningCrescent

/-! ## Alarm state machine (App component, src/unnamed/part_000)

State held by the component: `alarmTime` (a `Date` or `null`, persisted under
the key `sunriseAlarm`) and `isAlarmRinging` (a boolean).  We model the stored
`localStorage` value and the audio collaborator explicitly, and wall-clock
instants as seconds on a continuous local clock, so that
`Date.getHours() = t / 3600 % 24`, `getMinutes() = t / 60 % 60`,
`getSeconds() = t % 60`, and adding one calendar day is `t + 86400`. -/

/-- `{latitude, longitude}` in degrees. -/
structure Location where
  latitude : ℚ
  longitude : ℚ
  deriving DecidableEq

/-- The part of `CelestialInfo` the alarm logic reads: `setSunriseAlarm`
consumes only `celestialInfo.sunrise`; the remaining fields (sunset, noon,
moon data, positions) are display-only and never reach the alarm code. -/
structure CelestialInfo where
  sunrise : ℕ
  deriving DecidableEq

/-- `Date.getHours()` for an instant in local-clock seconds. -/
def getHours (t : ℕ) : ℕ := t / 3600 % 24

/-- `Date.getMinutes()` for an instant in local-clock seconds. -/
def getMinutes (t : ℕ) : ℕ := t / 60 % 60

/-- `Date.getSeconds()` for an instant in local-clock seconds. -/
def getSeconds (t : ℕ) : ℕ := t % 60

/-- The component state touched by the alarm feature: `alarmTime` and
`isAlarmRinging` are React state, `persisted` mirrors the
`localStorage` key `sunriseAlarm`, `audioOn` the audio collaborator. -/
structure AppAlarm where
  alarmTime : Option ℕ
  isAlarmRinging : Bool
  persisted : Option ℕ
  audioOn : Bool
  deriving DecidableEq

/-- The tick effect: `if (alarmTime && !isAlarmRinging)` and then
`now.getHours() === alarmTime.getHours() && now.getMinutes() ===
alarmTime.getMinutes() && now.getSeconds() === 0` triggers
`setIsAlarmRinging(true); playAlarmSound()`. -/
def alarmTick (now : ℕ) (s : AppAlarm) : AppAlarm :=
  match s.alarmTime with
  | none => s
  | some target =>
    if s.isAlarmRinging then s
    else if getHours now = getHours target ∧ getMinutes now = getMinutes target
        ∧ getSeconds now = 0 then
      { s with isAlarmRinging := true, audioOn := true }
    else s

/-- `setSunriseAlarm`: guarded on `celestialInfo`; if the sunrise of the
current snapshot has passed (`alarmDate < new Date()`), recompute the SunCalc
sunrise for `now + 1 day` at the stored location; set and persist the target.
`sunriseOf` stands for the external `SunCalc.getTimes(d, loc).sunrise`. -/
def setSunriseAlarm (sunriseOf : ℕ → Location → ℕ) (celestialInfo : Option CelestialInfo)
    (loc : Location) (now : ℕ) (s : AppAlarm) : AppAlarm :=
  match celestialInfo with
  | none => s
  | some info =>
    if info.sunrise < now then
      { s with alarmTime := some (sunriseOf (now + 86400) loc),
               persisted := some (sunriseOf (now + 86400) loc) }
    else
      { s with alarmTime := some info.sunrise, persisted := some info.sunrise }

/-- `clearAlarm`: `setAlarmTime(null)` and removal of the persisted key.
Note that it does NOT touch `isAlarmRinging` or the audio. -/
def clearAlarm (s : AppAlarm) : AppAlarm :=
  { s with alarmTime := none, persisted := none }

/-- `dismissAlarm`: `setIsAlarmRinging(false); stopAlarmSound();
setSunriseAlarm()`. -/
def dismissAlarm (sunriseOf : ℕ → Location → ℕ) (celestialInfo : Option CelestialInfo)
    (loc : Location) (now : ℕ) (s : AppAlarm) : AppAlarm :=
  setSunriseAlarm sunriseOf celestialInfo loc now
    { s with isAlarmRinging := false, audioOn := false }

/-- The events that can reach the alarm state: the 1 Hz tick effect and the
three user handlers. -/
inductive AlarmEvent
  | tick (now : ℕ)
  | arm (celestialInfo : Option CelestialInfo) (loc : Location) (now : ℕ)
  | clear
  | dismiss (celestialInfo : Option CelestialInfo) (loc : Location) (now : ℕ)

/-- One step of the alarm state machine. -/
def alarmStep (sunriseOf : ℕ → Location → ℕ) (s : AppAlarm) : AlarmEvent → AppAlarm
  | .tick now => alarmTick now s
  | .arm info loc now => setSunriseAlarm sunriseOf info loc now s
  | .clear => clearAlarm s
  | .dismiss info loc now => dismissAlarm sunriseOf info loc now s

/-- Recognizes the dismiss event. -/
def isDismiss : AlarmEvent → Bool
  | .dismiss _ _ _ => true
  | _ => false

/-- Number of transitions into the Ringing state along a run. -/
def ringCount (sunriseOf : ℕ → Location → ℕ) : AppAlarm → List AlarmEvent → ℕ
  | _, [] => 0
  | s, e :: es =>
    (if (alarmStep sunriseOf s e).isAlarmRinging = true
        ∧ s.isAlarmRinging = false then 1 else 0)
      + ringCount sunriseOf (alarmStep sunriseOf s e) es

/-- The `Unset` variant of the spec-level `AlarmState`, read off the
component state: no target and not ringing. -/
def isUnset (s : AppAlarm) : Prop :=
  s.alarmTime = none ∧ s.isAlarmRinging = false

/-- The startup initializer of `alarmTime`: read the persisted key
(`localStorage.getItem`), then `savedAlarm ? new Date(savedAlarm) : null`.
A JS `Date` built from an unparseable string is an Invalid Date, modelled
as `none : Option ℤ`; so the initializer yields `none` (null) for an absent
key and `some (parse s)` otherwise, where `parse` stands for the ISO-8601
date parser of the JS runtime. -/
def alarmTimeInit (parse : String → Option ℤ) (savedAlarm : Option String) :
    Option (Option ℤ) :=
  match savedAlarm with
  | none => none
  | some s => some (parse s)

/-- A concrete stand-in ephemeris used for evaluation: sunrise at 06:00:00
local time on the day of the queried instant, at every location. -/
def demoSunrise (t : ℕ) (_loc : Location) : ℕ := t / 86400 * 86400 + 21600

/-! ## Sky classification and dial projection (App component) -/

/-- `getSkyGradient`: convert the sun altitude to degrees (the local
`altDegrees`, inlined here), return the daytime gradient above 5°, the
sunrise/sunset gradient above -5°, else night. -/
noncomputable def getSkyGradient (sunAltitude : ℝ) : String :=
  if sunAltitude * (180 / Real.pi) > 5 then "from-sky-500 to-blue-700"
  else if sunAltitude * (180 / Real.pi) > -5 then
    "from-indigo-300 via-orange-400 to-red-500"
  else "from-gray-900 to-black"

/-- The dial angle: `azimuthDegrees + 180` where
`azimuthDegrees = azimuth * (180 / Math.PI)` (App, sunAngle/moonAngle). -/
noncomputable def projectAngleDegrees (azimuthRadians : ℝ) : ℝ :=
  azimuthRadians * (180 / Real.pi) + 180

/-- The radial offset: `(1 - Math.sin(altitude)) * 50`
(App, sunAltitudeOffset/moonAltitudeOffset). -/
noncomputable def projectRadialOffsetPercent (altitudeRadians : ℝ) : ℝ :=
  (1 - Real.sin altitudeRadians) * 50

/-! ## Theorems -/

/-- On `[0, 1)` the classification chain of the code agrees with the interval
table of the spec. -/
lemma classifyFraction_eq_spec (f : ℚ) (h0 : 0 ≤ f) (h1 : f < 1) :
    classifyFraction f = specPhaseOfFraction f := by
  rcases lt_or_le f 0.03 with h03 | h03
  · have e1 : classifyFraction f = MoonPhase.NewMoon := by
      unfold classifyFraction; rw [if_pos (Or.inl h03)]
    have e2 : specPhaseOfFraction f = MoonPhase.NewMoon := by
      unfold specPhaseOfFraction; rw [if_pos (Or.inl ⟨h0, h03⟩)]
    rw [e1, e2]
  rcases lt_or_le f 0.97 with h97 | h97
  · have hc1 : ¬(f < 0.03 ∨ 0.97 ≤ f) := by push_neg; exact ⟨h03, h97⟩
    have hc2 : ¬((0 ≤ f ∧ f < 0.03) ∨ (0.97 ≤ f ∧ f < 1)) := by
      rintro (⟨_, h⟩ | ⟨h, _⟩) <;> linarith
    rcases lt_or_le f 0.23 with h23 | h23
    · have e1 : classifyFraction f = MoonPhase.WaxingCrescent := by
        unfold classifyFraction; rw [if_neg hc1, if_pos h23]
      have e2 : specPhaseOfFraction f = MoonPhase.WaxingCrescent := by
        unfold specPhaseOfFraction; rw [if_neg hc2, if_pos ⟨h03, h23⟩]
      rw [e1, e2]
    rcases lt_or_le f 0.27 with h27 | h27
    · have e1 : classifyFraction f = MoonPhase.FirstQuarter := by
        unfold classifyFraction
        rw [if_neg hc1, if_neg (not_lt.2 h23), if_pos h27]
      have e2 : specPhaseOfFraction f = MoonPhase.FirstQuarter := by
        unfold specPhaseOfFraction
        rw [if_neg hc2, if_neg fun h => absurd h.2 (not_lt.2 h23),
          if_pos ⟨h23, h27⟩]
      rw [e1, e2]
    rcases lt_or_le f 0.48 with h48 | h48
    · have e1 : classifyFraction f = MoonPhase.WaxingGibbous := by
        unfold classifyFraction
        rw [if_neg hc1, if_neg (not_lt.2 h23), if_neg (not_lt.2 h27), if_pos h48]
      have e2 : specPhaseOfFraction f = MoonPhase.WaxingGibbous := by
        unfold specPhaseOfFraction
        rw [if_neg hc2, if_neg fun h => absurd h.2 (not_lt.2 h23),
          if_neg fun h => absurd h.2 (not_lt.2 h27), if_pos ⟨h27, h48⟩]
      rw [e1, e2]
    rcases lt_or_le f 0.52 with h52 | h52
    · have e1 : classifyFraction f = MoonPhase.FullMoon := by
        unfold classifyFraction
        rw [if_neg hc1, if_neg (not_lt.2 h23), if_neg (not_lt.2 h27),
          if_neg (not_lt.2 h48), if_pos h52]
      have e2 : specPhaseOfFraction f = MoonPhase.FullMoon := by
        unfold specPhaseOfFraction
        rw [if_neg hc2, if_neg fun h => absurd h.2 (not_lt.2 h23),
          if_neg fun h => absurd h.2 (not_lt.2 h27),
          if_neg fun h => absurd h.2 (not_lt.2 h48), if_pos ⟨h48, h52⟩]
      rw [e1, e2]
    rcases lt_or_le f 0.73 with h73 | h73
    · have e1 : classifyFraction f = MoonPhase.WaningGibbous := by
        unfold classifyFraction
        rw [if_neg hc1, if_neg (not_lt.2 h23), if_neg (not_lt.2 h27),
          if_neg (not_lt.2 h48), if_neg (not_lt.2 h52), if_pos h73]
      have e2 : specPhaseOfFraction f = MoonPhase.WaningGibbous := by
        unfold specPhaseOfFraction
        rw [if_neg hc2, if_neg fun h => absurd h.2 (not_lt.2 h23),
          if_neg fun h => absurd h.2 (not_lt.2 h27),
          if_neg fun h => absurd h.2 (not_lt.2 h48),
          if_neg fun h => absurd h.2 (not_lt.2 h52), if_pos ⟨h52, h73⟩]
      rw [e1, e2]
    rcases lt_or_le f 0.77 with h77 | h77
    · have e1 : classifyFraction f = MoonPhase.ThirdQuarter := by
        unfold classifyFraction
        rw [if_neg hc1, if_neg (not_lt.2 h23), if_neg (not_lt.2 h27),
          if_neg (not_lt.2 h48), if_neg (not_lt.2 h52), if_neg (not_lt.2 h73),
          if_pos h77]
      have e2 : specPhaseOfFraction f = MoonPhase.ThirdQuarter := by
        unfold specPhaseOfFraction
        rw [if_neg hc2, if_neg fun h => absurd h.2 (not_lt.2 h23),
          if_neg fun h => absurd h.2 (not_lt.2 h27),
          if_neg fun h => absurd h.2 (not_lt.2 h48),
          if_neg fun h => absurd h.2 (not_lt.2 h52),
          if_neg fun h => absurd h.2 (not_lt.2 h73), if_pos ⟨h73, h77⟩]
      rw [e1, e2]
    · have e1 : classifyFraction f = MoonPhase.WaningCrescent := by
        unfold classifyFraction
        rw [if_neg hc1, if_neg (not_lt.2 h23), if_neg (not_lt.2 h27),
          if_neg (not_lt.2 h48), if_neg (not_lt.2 h52), if_neg (not_lt.2 h73),
          if_neg (not_lt.2 h77)]
      have e2 : specPhaseOfFraction f = MoonPhase.WaningCrescent := by
        unfold specPhaseOfFraction
        rw [if_neg hc2, if_neg fun h => absurd h.2 (not_lt.2 h23),
          if_neg fun h => absurd h.2 (not_lt.2 h27),
          if_neg fun h => absurd h.2 (not_lt.2 h48),
          if_neg fun h => absurd h.2 (not_lt.2 h52),
          if_neg fun h => absurd h.2 (not_lt.2 h73),
          if_neg fun h => absurd h.2 (not_lt.2 h77)]
      rw [e1, e2]
  · have e1 : classifyFraction f = MoonPhase.NewMoon := by
      unfold classifyFraction; rw [if_pos (Or.inr h97)]
    have e2 : specPhaseOfFraction f = MoonPhase.NewMoon := by
      unfold specPhaseOfFraction; rw [if_pos (Or.inr ⟨h97, h1⟩)]
    rw [e1, e2]

/-- C1: `getMoonPhase` computes `age` with the JS truncating remainder, not
mathematical modulo: one day before the reference new moon the age is the
negative value -1 and the fraction is negative, violating `age ∈
[0, LUNAR_MONTH)` and `fraction ∈ [0, 1)`. -/
theorem getMoonPhase_negative_age_before_epoch :
    (getMoonPhase (947182440000 - 86400000)).age = -1
    ∧ (getMoonPhase (947182440000 - 86400000)).fraction < 0 := by
  have hage : (getMoonPhase (947182440000 - 86400000)).age = -1 := by
    norm_num [getMoonPhase, daysSinceKnownNewMoon, jsMod, jsTrunc,
      KNOWN_NEW_MOON, LUNAR_MONTH]
  refine ⟨hage, ?_⟩
  have hf : (getMoonPhase (947182440000 - 86400000)).fraction
      = (getMoonPhase (947182440000 - 86400000)).age / LUNAR_MONTH := rfl
  rw [hf, hage]
  norm_num [LUNAR_MONTH]

/-- C2: whenever the cycle fraction lies in `[0, 1)`, the phase returned by
`getMoonPhase` is exactly the step function given by the spec table; the
instant at the reference new moon yields phase NewMoon with age exactly 0;
and a fraction of exactly 0.50 yields FullMoon. -/
theorem getMoonPhase_matches_phase_table :
    (∀ tms : ℚ, 0 ≤ (getMoonPhase tms).fraction → (getMoonPhase tms).fraction < 1 →
        (getMoonPhase tms).phase = specPhaseOfFraction ((getMoonPhase tms).fraction))
    ∧ ((getMoonPhase KNOWN_NEW_MOON).phase = MoonPhase.NewMoon
        ∧ (getMoonPhase KNOWN_NEW_MOON).age = 0)
    ∧ ∀ tms : ℚ, (getMoonPhase tms).fraction = 1 / 2 →
        (getMoonPhase tms).phase = MoonPhase.FullMoon := by
  refine ⟨fun tms hl hu => ?_, ⟨?_, ?_⟩, fun tms h => ?_⟩
  · have hp : (getMoonPhase tms).phase
        = classifyFraction ((getMoonPhase tms).fraction) := rfl
    rw [hp, classifyFraction_eq_spec _ hl hu]
  · norm_num [getMoonPhase, daysSinceKnownNewMoon, jsMod, jsTrunc,
      KNOWN_NEW_MOON, LUNAR_MONTH, classifyFraction]
  · norm_num [getMoonPhase, daysSinceKnownNewMoon, jsMod, jsTrunc,
      KNOWN_NEW_MOON, LUNAR_MONTH]
  · have hp : (getMoonPhase tms).phase
        = classifyFraction ((getMoonPhase tms).fraction) := rfl
    rw [hp, h]
    norm_num [classifyFraction]

/-- Instantiation of `getMoonPhase_matches_phase_table` at the reference
new-moon instant (fraction 0) and at the mid-cycle instant
`KNOWN_NEW_MOON + LUNAR_MONTH / 2` days (fraction exactly 1/2). -/
theorem getMoonPhase_matches_phase_table_check :
    (getMoonPhase KNOWN_NEW_MOON).phase
      = specPhaseOfFraction ((getMoonPhase KNOWN_NEW_MOON).fraction)
    ∧ (getMoonPhase (947182440000 + 29530588853 * 27 / 625)).phase
      = MoonPhase.FullMoon :=
  ⟨getMoonPhase_matches_phase_table.1 KNOWN_NEW_MOON
      (by norm_num [getMoonPhase, daysSinceKnownNewMoon, jsMod, jsTrunc,
        KNOWN_NEW_MOON, LUNAR_MONTH])
      (by norm_num [getMoonPhase, daysSinceKnownNewMoon, jsMod, jsTrunc,
        KNOWN_NEW_MOON, LUNAR_MONTH]),
   getMoonPhase_matches_phase_table.2.2 (947182440000 + 29530588853 * 27 / 625)
      (by norm_num [getMoonPhase, daysSinceKnownNewMoon, jsMod, jsTrunc,
        KNOWN_NEW_MOON, LUNAR_MONTH])⟩


/-- `setSunriseAlarm` never writes `isAlarmRinging`. -/
lemma setSunriseAlarm_ringing_eq (sunriseOf : ℕ → Location → ℕ)
    (info : Option CelestialInfo) (loc : Location) (now : ℕ) (s : AppAlarm) :
    (setSunriseAlarm sunriseOf info loc now s).isAlarmRinging = s.isAlarmRinging := by
  unfold setSunriseAlarm
  split
  · rfl
  split <;> rfl

/-- `setSunriseAlarm` never writes `audioOn`. -/
lemma setSunriseAlarm_audio_eq (sunriseOf : ℕ → Location → ℕ)
    (info : Option CelestialInfo) (loc : Location) (now : ℕ) (s : AppAlarm) :
    (setSunriseAlarm sunriseOf info loc now s).audioOn = s.audioOn := by
  unfold setSunriseAlarm
  split
  · rfl
  split <;> rfl

/-- While already ringing, a tick does nothing. -/
lemma alarmTick_of_ringing (now : ℕ) (s : AppAlarm)
    (hr : s.isAlarmRinging = true) : alarmTick now s = s := by
  unfold alarmTick
  split
  · rfl
  · rw [if_pos hr]

/-- A non-dismiss event never leaves the Ringing state: the tick guard is
disabled while ringing, `setSunriseAlarm` and `clearAlarm` do not write
`isAlarmRinging`. -/
lemma alarmStep_preserves_ringing (sunriseOf : ℕ → Location → ℕ) (s : AppAlarm)
    (e : AlarmEvent) (hd : isDismiss e = false) (hr : s.isAlarmRinging = true) :
    (alarmStep sunriseOf s e).isAlarmRinging = true := by
  cases e with
  | tick now => rw [alarmStep, alarmTick_of_ringing now s hr]; exact hr
  | arm info loc now => rw [alarmStep, setSunriseAlarm_ringing_eq]; exact hr
  | clear => exact hr
  | dismiss info loc now => simp [isDismiss] at hd

/-- Once ringing, a dismiss-free run can never ring again. -/
lemma ringCount_eq_zero_of_ringing (sunriseOf : ℕ → Location → ℕ)
    (es : List AlarmEvent) (hnd : ∀ e ∈ es, isDismiss e = false) :
    ∀ s : AppAlarm, s.isAlarmRinging = true → ringCount sunriseOf s es = 0 := by
  induction es with
  | nil => intro s _; rfl
  | cons e es ih =>
    intro s hr
    have hde : isDismiss e = false := hnd e (List.mem_cons_self e es)
    have hr2 := alarmStep_preserves_ringing sunriseOf s e hde hr
    have hcond : ¬((alarmStep sunriseOf s e).isAlarmRinging = true
        ∧ s.isAlarmRinging = false) := by
      intro h
      rw [hr] at h
      exact Bool.noConfusion h.2
    simp only [ringCount]
    rw [if_neg hcond,
      ih (fun x hx => hnd x (List.mem_cons_of_mem e hx)) _ hr2]

/-- Unfolding of `setSunriseAlarm` when a snapshot is present. -/
lemma setSunriseAlarm_some (sunriseOf : ℕ → Location → ℕ) (info : CelestialInfo)
    (loc : Location) (now : ℕ) (s : AppAlarm) :
    setSunriseAlarm sunriseOf (some info) loc now s =
      if info.sunrise < now then
        { s with alarmTime := some (sunriseOf (now + 86400) loc),
                 persisted := some (sunriseOf (now + 86400) loc) }
      else
        { s with alarmTime := some info.sunrise,
                 persisted := some info.sunrise } := rfl

/-- Unfolding of `alarmTick` when a target is armed. -/
lemma alarmTick_some (now target : ℕ) (s : AppAlarm)
    (hT : s.alarmTime = some target) :
    alarmTick now s =
      if s.isAlarmRinging = true then s
      else if getHours now = getHours target ∧ getMinutes now = getMinutes target
          ∧ getSeconds now = 0 then
        { s with isAlarmRinging := true, audioOn := true }
      else s := by
  unfold alarmTick
  split
  · rename_i heq
    rw [hT] at heq
    exact Option.noConfusion heq
  · rename_i t heq
    rw [hT] at heq
    injection heq with h
    subst h
    rfl

/-- C3: from an `Armed(target)`, not-Ringing state, a tick at instant `now`
transitions to Ringing if and only if the hour and minute of `now` equal
those of `target` and the second of `now` is 0 (and then the audio is
started); and along any run of the step relation that contains no dismiss,
the machine transitions into Ringing at most once — it never rings twice
without an intervening dismiss. -/
theorem alarmTick_exact_trigger_and_single_ring :
    (∀ (now target : ℕ) (s : AppAlarm), s.alarmTime = some target →
        s.isAlarmRinging = false →
        (((alarmTick now s).isAlarmRinging = true)
            ↔ (getHours now = getHours target ∧ getMinutes now = getMinutes target
                ∧ getSeconds now = 0))
        ∧ ((getHours now = getHours target ∧ getMinutes now = getMinutes target
              ∧ getSeconds now = 0) → (alarmTick now s).audioOn = true))
    ∧ ∀ (sunriseOf : ℕ → Location → ℕ) (s : AppAlarm) (es : List AlarmEvent),
        (∀ e ∈ es, isDismiss e = false) → ringCount sunriseOf s es ≤ 1 := by
  constructor
  · intro now target s hT hR
    by_cases hc : getHours now = getHours target ∧ getMinutes now = getMinutes target
        ∧ getSeconds now = 0
    · have hstep : alarmTick now s = { s with isAlarmRinging := true, audioOn := true } := by
        rw [alarmTick_some now target s hT,
          if_neg (by rw [hR]; exact Bool.noConfusion), if_pos hc]
      rw [hstep]
      exact ⟨⟨fun _ => hc, fun _ => rfl⟩, fun _ => rfl⟩
    · have hstep : alarmTick now s = s := by
        rw [alarmTick_some now target s hT,
          if_neg (by rw [hR]; exact Bool.noConfusion), if_neg hc]
      rw [hstep, hR]
      exact ⟨⟨fun h => absurd h Bool.noConfusion, fun h => absurd h hc⟩,
        fun h => absurd h hc⟩
  · intro sunriseOf s es
    induction es generalizing s with
    | nil => intro _; simp [ringCount]
    | cons e es ih =>
      intro hnd
      have hnd2 : ∀ x ∈ es, isDismiss x = false :=
        fun x hx => hnd x (List.mem_cons_of_mem e hx)
      simp only [ringCount]
      by_cases hc : (alarmStep sunriseOf s e).isAlarmRinging = true
          ∧ s.isAlarmRinging = false
      · rw [if_pos hc, ringCount_eq_zero_of_ringing sunriseOf es hnd2 _ hc.1]
      · rw [if_neg hc]
        simpa using ih _ hnd2

/-- Instantiation of `alarmTick_exact_trigger_and_single_ring`: an armed
06:00:00 target rings at the 06:00:00 tick, and a dismiss-free run performs
at most one ring transition. -/
theorem alarmTick_exact_trigger_and_single_ring_check :
    (alarmTick 21600 ⟨some 21600, false, some 21600, false⟩).isAlarmRinging = true
    ∧ ringCount demoSunrise ⟨some 21600, false, some 21600, false⟩
        [AlarmEvent.tick 21600] ≤ 1 :=
  ⟨((alarmTick_exact_trigger_and_single_ring.1 21600 21600
        ⟨some 21600, false, some 21600, false⟩ rfl rfl).1).mpr
      (by refine ⟨rfl, rfl, rfl⟩),
   alarmTick_exact_trigger_and_single_ring.2 demoSunrise
      ⟨some 21600, false, some 21600, false⟩ [AlarmEvent.tick 21600]
      (by intro e he
          rw [List.mem_singleton] at he
          subst he
          rfl)⟩

/-- C4: arming with the current snapshot available sets and persists the
target: when the sunrise of the snapshot is still in the future the target
is exactly that sunrise; when it has already passed, the target is the
ephemeris sunrise computed for `now + 1 day` at the same location, which is
strictly in the future provided the ephemeris returns an instant lying on
the day it was queried for; in both cases the armed target is never
strictly in the past. -/
theorem setSunriseAlarm_target_spec :
    ∀ (sunriseOf : ℕ → Location → ℕ) (loc : Location) (now : ℕ)
      (info : CelestialInfo) (s : AppAlarm),
    (now < info.sunrise →
        (setSunriseAlarm sunriseOf (some info) loc now s).alarmTime = some info.sunrise
        ∧ (setSunriseAlarm sunriseOf (some info) loc now s).persisted = some info.sunrise)
    ∧ (info.sunrise < now →
        sunriseOf (now + 86400) loc / 86400 = (now + 86400) / 86400 →
        (setSunriseAlarm sunriseOf (some info) loc now s).alarmTime
            = some (sunriseOf (now + 86400) loc)
        ∧ (setSunriseAlarm sunriseOf (some info) loc now s).persisted
            = some (sunriseOf (now + 86400) loc)
        ∧ now < sunriseOf (now + 86400) loc)
    ∧ (sunriseOf (now + 86400) loc / 86400 = (now + 86400) / 86400 →
        ∀ target : ℕ,
          (setSunriseAlarm sunriseOf (some info) loc now s).alarmTime = some target →
          now ≤ target) := by
  intro sunriseOf loc now info s
  refine ⟨fun h => ?_, fun h hprov => ?_, fun hprov target hT => ?_⟩
  · have hn : ¬ info.sunrise < now := by omega
    rw [setSunriseAlarm_some, if_neg hn]
    exact ⟨rfl, rfl⟩
  · have h2 : now < sunriseOf (now + 86400) loc := by
      generalize hx : sunriseOf (now + 86400) loc = x at hprov ⊢
      omega
    rw [setSunriseAlarm_some, if_pos h]
    exact ⟨rfl, rfl, h2⟩
  · rw [setSunriseAlarm_some] at hT
    by_cases h : info.sunrise < now
    · rw [if_pos h] at hT
      have hx : sunriseOf (now + 86400) loc = target := by
        simpa using hT
      generalize hg : sunriseOf (now + 86400) loc = x at hprov hx
      omega
    · rw [if_neg h] at hT
      have hx : info.sunrise = target := by simpa using hT
      omega

/-- Instantiation of `setSunriseAlarm_target_spec` with the stand-in
ephemeris: arming at 05:58:20 with a 06:00:00 sunrise targets that sunrise;
arming at 08:20:00 with the 06:00:00 sunrise already past targets the
next-day 06:00:00 sunrise, which is in the future. -/
theorem setSunriseAlarm_target_spec_check :
    ((setSunriseAlarm demoSunrise (some ⟨21600⟩) ⟨0, 0⟩ 21500
        ⟨none, false, none, false⟩).alarmTime = some 21600
      ∧ (setSunriseAlarm demoSunrise (some ⟨21600⟩) ⟨0, 0⟩ 21500
        ⟨none, false, none, false⟩).persisted = some 21600)
    ∧ ((setSunriseAlarm demoSunrise (some ⟨21600⟩) ⟨0, 0⟩ 30000
        ⟨none, false, none, false⟩).alarmTime
          = some (demoSunrise (30000 + 86400) ⟨0, 0⟩)
      ∧ 30000 < demoSunrise (30000 + 86400) ⟨0, 0⟩) :=
  ⟨(setSunriseAlarm_target_spec demoSunrise ⟨0, 0⟩ 21500 ⟨21600⟩
      ⟨none, false, none, false⟩).1 (by decide),
   ⟨((setSunriseAlarm_target_spec demoSunrise ⟨0, 0⟩ 30000 ⟨21600⟩
        ⟨none, false, none, false⟩).2.1 (by decide) (by decide)).1,
    ((setSunriseAlarm_target_spec demoSunrise ⟨0, 0⟩ 30000 ⟨21600⟩
        ⟨none, false, none, false⟩).2.1 (by decide) (by decide)).2.2⟩⟩


/-- C5 counterexample: from a Ringing state reached while no celestial
snapshot is available (e.g. a rehydrated alarm that rang before geolocation
resolved), `dismissAlarm` leaves the stale target `0` in place, which is not
strictly greater than the dismissal instant `86400` — so dismiss does NOT
always produce a fresh future target. -/
theorem dismissAlarm_stale_target_counterexample :
    (⟨some 0, true, some 0, true⟩ : AppAlarm).isAlarmRinging = true
    ∧ (dismissAlarm demoSunrise none ⟨0, 0⟩ 86400
        ⟨some 0, true, some 0, true⟩).alarmTime = some 0
    ∧ ¬ (86400 < 0) :=
  ⟨rfl, rfl, by omega⟩

/-- C5 (amended): from Ringing, when a celestial snapshot is available,
whose sunrise is not exactly the dismissal instant, and the ephemeris
returns an instant on the day it is queried for, `dismissAlarm` stops the
audio, leaves Ringing, and produces an Armed state whose target is strictly
greater than the dismissal instant. -/
theorem dismissAlarm_rearms_future_target :
    ∀ (sunriseOf : ℕ → Location → ℕ) (loc : Location) (now : ℕ)
      (info : CelestialInfo) (s : AppAlarm),
    s.isAlarmRinging = true →
    info.sunrise ≠ now →
    sunriseOf (now + 86400) loc / 86400 = (now + 86400) / 86400 →
    (dismissAlarm sunriseOf (some info) loc now s).isAlarmRinging = false
    ∧ (dismissAlarm sunriseOf (some info) loc now s).audioOn = false
    ∧ ∃ target : ℕ,
        (dismissAlarm sunriseOf (some info) loc now s).alarmTime = some target
        ∧ now < target := by
  intro sunriseOf loc now info s _ hne hprov
  unfold dismissAlarm
  rw [setSunriseAlarm_some]
  by_cases h : info.sunrise < now
  · rw [if_pos h]
    refine ⟨rfl, rfl, sunriseOf (now + 86400) loc, rfl, ?_⟩
    generalize hx : sunriseOf (now + 86400) loc = x at hprov ⊢
    omega
  · rw [if_neg h]
    exact ⟨rfl, rfl, info.sunrise, rfl, by omega⟩

/-- Instantiation of `dismissAlarm_rearms_future_target`: dismissing at
08:20:00 a ringing alarm whose snapshot sunrise (06:00:00) has passed
re-arms to the next-day sunrise, a strictly future instant. -/
theorem dismissAlarm_rearms_future_target_check :
    (dismissAlarm demoSunrise (some ⟨21600⟩) ⟨0, 0⟩ 30000
        ⟨some 21600, true, some 21600, true⟩).isAlarmRinging = false
    ∧ ∃ target : ℕ,
        (dismissAlarm demoSunrise (some ⟨21600⟩) ⟨0, 0⟩ 30000
          ⟨some 21600, true, some 21600, true⟩).alarmTime = some target
        ∧ 30000 < target :=
  ⟨(dismissAlarm_rearms_future_target demoSunrise ⟨0, 0⟩ 30000 ⟨21600⟩
      ⟨some 21600, true, some 21600, true⟩ rfl (by decide) (by decide)).1,
   (dismissAlarm_rearms_future_target demoSunrise ⟨0, 0⟩ 30000 ⟨21600⟩
      ⟨some 21600, true, some 21600, true⟩ rfl (by decide) (by decide)).2.2⟩

/-- C9 counterexample: invoking `clearAlarm` from a Ringing state leaves
`isAlarmRinging` (and the audio) on, so the resulting state is NOT the
Unset state the claim promises. -/
theorem clearAlarm_from_ringing_counterexample :
    (clearAlarm ⟨some 100, true, some 100, true⟩).isAlarmRinging = true
    ∧ (clearAlarm ⟨some 100, true, some 100, true⟩).audioOn = true
    ∧ ¬ isUnset (clearAlarm ⟨some 100, true, some 100, true⟩) :=
  ⟨rfl, rfl, fun h => Bool.noConfusion h.2⟩

/-- C9 (amended): `clearAlarm` always erases the target and the persisted
key and leaves `isAlarmRinging` unchanged; hence from a non-ringing (Armed
or Unset) state it yields Unset, on an already-Unset state with no persisted
key it is a no-op, but from Ringing the ringing flag survives and the state
is not Unset. -/
theorem clearAlarm_spec :
    ∀ s : AppAlarm,
    (clearAlarm s).alarmTime = none
    ∧ (clearAlarm s).persisted = none
    ∧ (clearAlarm s).isAlarmRinging = s.isAlarmRinging
    ∧ (s.isAlarmRinging = false → isUnset (clearAlarm s))
    ∧ (s.isAlarmRinging = true → ¬ isUnset (clearAlarm s))
    ∧ (s.alarmTime = none ∧ s.persisted = none → clearAlarm s = s) := by
  intro s
  refine ⟨rfl, rfl, rfl, fun h => ⟨rfl, h⟩, fun h hu => ?_, fun h => ?_⟩
  · exact Bool.noConfusion (h.symm.trans hu.2)
  · obtain ⟨h1, h2⟩ := h
    cases s with
    | mk a r p o =>
      simp only at h1 h2
      subst h1
      subst h2
      rfl

/-- Instantiation of `clearAlarm_spec` at an Armed state and at the Unset
state with no persisted key. -/
theorem clearAlarm_spec_check :
    isUnset (clearAlarm ⟨some 21600, false, some 21600, false⟩)
    ∧ clearAlarm ⟨none, false, none, false⟩ = ⟨none, false, none, false⟩ :=
  ⟨(clearAlarm_spec ⟨some 21600, false, some 21600, false⟩).2.2.2.1 rfl,
   (clearAlarm_spec ⟨none, false, none, false⟩).2.2.2.2.2 ⟨rfl, rfl⟩⟩


/-- C7: at startup an absent persisted key does yield the Unset state
(`null`), but a malformed persisted string does NOT: `new Date(saved)` on an
unparseable string produces an Invalid Date rather than `null`, so the
component boots into an armed-with-invalid-date state instead of Unset
(here with the stand-in parser that rejects every string, applied to the
persisted value "not-a-date"). -/
theorem alarmTimeInit_malformed_not_unset :
    alarmTimeInit (fun _ => none) none = none
    ∧ alarmTimeInit (fun _ => none) (some "not-a-date") = some none
    ∧ (alarmTimeInit (fun _ => none) (some "not-a-date")).isSome = true :=
  ⟨rfl, rfl, rfl⟩

/-- C10: the tick trigger compares only wall-clock hour and minute (plus
second = 0) and is blind to the calendar day of the target: the guard is
invariant under shifting the target by one day, and concretely, arming at
05:58:20 a target of 06:00:00 on the NEXT day (instant 108000) reaches a
reachable Armed state that transitions to Ringing already at the first
06:00:00 tick (instant 21600), strictly before the target. -/
theorem alarmTick_ignores_target_date :
    (∀ now target : ℕ,
        ((getHours now = getHours (target + 86400)
            ∧ getMinutes now = getMinutes (target + 86400) ∧ getSeconds now = 0)
          ↔ (getHours now = getHours target ∧ getMinutes now = getMinutes target
            ∧ getSeconds now = 0)))
    ∧ (setSunriseAlarm demoSunrise (some ⟨108000⟩) ⟨0, 0⟩ 21500
        ⟨none, false, none, false⟩).alarmTime = some 108000
    ∧ (alarmTick 21600 (setSunriseAlarm demoSunrise (some ⟨108000⟩) ⟨0, 0⟩ 21500
        ⟨none, false, none, false⟩)).isAlarmRinging = true
    ∧ 21600 < 108000 := by
  refine ⟨fun now target => ?_, rfl, rfl, by omega⟩
  have h1 : getHours (target + 86400) = getHours target := by
    unfold getHours
    omega
  have h2 : getMinutes (target + 86400) = getMinutes target := by
    unfold getMinutes
    omega
  rw [h1, h2]

/-- C6: the dial projection is `angleDegrees = azimuth * (180 / pi) + 180`
and `radialOffsetPercent = (1 - sin altitude) * 50`, which always lies in
`[0, 100]`; at altitude pi/2 with azimuth 0 the offset is 0 and the angle is
180; at altitude -pi/2 the offset is 100. -/
theorem projection_offset_bounds_and_anchors :
    (∀ altitudeRadians : ℝ, 0 ≤ projectRadialOffsetPercent altitudeRadians
        ∧ projectRadialOffsetPercent altitudeRadians ≤ 100)
    ∧ (∀ azimuthRadians : ℝ,
        projectAngleDegrees azimuthRadians
          = azimuthRadians * (180 / Real.pi) + 180)
    ∧ projectRadialOffsetPercent (Real.pi / 2) = 0
    ∧ projectAngleDegrees 0 = 180
    ∧ projectRadialOffsetPercent (-(Real.pi / 2)) = 100 := by
  refine ⟨fun a => ?_, fun _ => rfl, ?_, ?_, ?_⟩
  · have h1 := Real.neg_one_le_sin a
    have h2 := Real.sin_le_one a
    unfold projectRadialOffsetPercent
    constructor <;> nlinarith
  · unfold projectRadialOffsetPercent
    rw [Real.sin_pi_div_two]
    ring
  · unfold projectAngleDegrees
    ring
  · unfold projectRadialOffsetPercent
    rw [Real.sin_neg, Real.sin_pi_div_two]
    ring

/-- C8: `getSkyGradient` returns the daytime gradient exactly when the sun
altitude converted to degrees exceeds 5, the twilight gradient exactly on
(-5, 5], and the night gradient exactly on (-inf, -5]; in particular
exactly 5 degrees of altitude is Twilight and exactly -5 degrees is Night. -/
theorem getSkyGradient_boundaries :
    (∀ sunAltitude : ℝ,
      (getSkyGradient sunAltitude = "from-sky-500 to-blue-700"
          ↔ 5 < sunAltitude * (180 / Real.pi))
      ∧ (getSkyGradient sunAltitude = "from-indigo-300 via-orange-400 to-red-500"
          ↔ (-5 < sunAltitude * (180 / Real.pi) ∧ sunAltitude * (180 / Real.pi) ≤ 5))
      ∧ (getSkyGradient sunAltitude = "from-gray-900 to-black"
          ↔ sunAltitude * (180 / Real.pi) ≤ -5))
    ∧ getSkyGradient (5 * (Real.pi / 180))
        = "from-indigo-300 via-orange-400 to-red-500"
    ∧ getSkyGradient (-(5 * (Real.pi / 180))) = "from-gray-900 to-black" := by
  have hdeg : (5 * (Real.pi / 180)) * (180 / Real.pi) = 5 := by
    have hpi := Real.pi_ne_zero
    field_simp
  refine ⟨fun a => ?_, ?_, ?_⟩
  · unfold getSkyGradient
    split_ifs with h1 h2
    · refine ⟨⟨fun _ => h1, fun _ => rfl⟩, ⟨fun h => ?_, fun h => ?_⟩,
        ⟨fun h => ?_, fun h => ?_⟩⟩
      · exact absurd h (by decide)
      · linarith [h.2]
      · exact absurd h (by decide)
      · linarith
    · rw [not_lt] at h1
      refine ⟨⟨fun h => ?_, fun h => ?_⟩, ⟨fun _ => ⟨h2, h1⟩, fun _ => rfl⟩,
        ⟨fun h => ?_, fun h => ?_⟩⟩
      · exact absurd h (by decide)
      · linarith
      · exact absurd h (by decide)
      · linarith
    · rw [not_lt] at h1 h2
      refine ⟨⟨fun h => ?_, fun h => ?_⟩, ⟨fun h => ?_, fun h => ?_⟩,
        ⟨fun _ => h2, fun _ => rfl⟩⟩
      · exact absurd h (by decide)
      · linarith
      · exact absurd h (by decide)
      · linarith [h.1]
  · unfold getSkyGradient
    rw [hdeg, if_neg (lt_irrefl 5), if_pos (by norm_num : (-5 : ℝ) < 5)]
  · unfold getSkyGradient
    rw [neg_mul, hdeg, if_neg (by norm_num : ¬ (5 : ℝ) < -5),
      if_neg (lt_irrefl (-5 : ℝ))]


end CelestialClock
